import Mathlib

/-!
# Verification of the read-data-service core
Shallow embedding of `src/todoapp/read_data_service/read_data_service/main.py`:
the token-issuance flow (`get_secret_from_kong`, `create_jwt_token`,
`generate_token`) and the CRUD item operations (`read_item`, `update_item`,
`delete_item`).

Time is modelled as Unix seconds (`Nat`); `datetime.utcnow()` becomes an
explicit `now : Nat` parameter.  Python dicts become association lists with
Python's `dict.update` semantics; fallible code returns `Except`.
-/

namespace ReadDataService

/-- A JSON claim value: either a string (e.g. `iss`) or a numeric timestamp
(e.g. `exp`, which the signing library serialises as an integer epoch time). -/
inductive ClaimValue where
  | str : String → ClaimValue
  | num : Nat → ClaimValue
deriving DecidableEq, Repr

/-- A Python dict of claims, as an insertion-ordered association list.
A real Python dict has no duplicate keys; theorems that need this carry a
`Nodup` hypothesis on the key list. -/
abbrev ClaimsDict := List (String × ClaimValue)

/-- Python `d[k]` read: first binding of the key. -/
def dictGet : ClaimsDict → String → Option ClaimValue
  | [], _ => none
  | (k', v') :: rest, k => if k' = k then some v' else dictGet rest k

/-- Python `d.update({k: v})`: replace the value at `k` in place if present,
otherwise append the new binding at the end (insertion order). -/
def dictSet : ClaimsDict → String → ClaimValue → ClaimsDict
  | [], k, v => [(k, v)]
  | (k', v') :: rest, k, v =>
    if k' = k then (k, v) :: rest else (k', v') :: dictSet rest k v

/-- Number of bindings a dict holds for a key. -/
def countKey (d : ClaimsDict) (k : String) : Nat :=
  (d.filter (fun p => p.1 = k)).length

/-- The ways the Python functions fail: a raised `fastapi.HTTPException`
with a status code and detail message, or an unhandled builtin lookup
exception (`IndexError` from `[0]` on an empty list, `KeyError` from a
missing dict key). -/
inductive PyError where
  | httpException (status_code : Nat) (detail : String)
  | indexError
  | keyError (key : String)
deriving DecidableEq, Repr

/-! ## JWT settings (main.py lines 32-34) -/

def ALGORITHM : String := "HS256"

def ACCESS_TOKEN_EXPIRE_MINUTES : Nat := 2

/-- `datetime(2038, 1, 19, 3, 14, 7)` as Unix seconds: 2038-01-19T03:14:07Z,
the largest signed 32-bit epoch time. -/
def JWT_CEILING : Nat := 2147483647

/-! ## The signing library (external collaborator, `jose.jwt`) -/

/-- Modelled from the spec: the compact signed token — "a compact signed
string encoding header + claims (including `exp`) + signature, computed with
the provided Secret as the HMAC key" (§4.2).  The signature is abstracted as
the signing key it was computed with; crypto internals are irrelevant to the
claims. -/
structure SignedToken where
  typ : String
  alg : String
  claims : ClaimsDict
  sigKey : String
deriving DecidableEq, Repr

/-- Modelled from the spec: `jose.jwt.encode(claims, key, algorithm, headers)` —
produces the compact signed string from the header fields, the claims and the
HMAC key (§4.2 Output). -/
def jwt_encode (claims : ClaimsDict) (key : String) (algorithm : String)
    (typ : String) : SignedToken :=
  ⟨typ, algorithm, claims, key⟩

/-- Modelled from the spec: decoding a token with a key — verification
succeeds exactly when the key matches the one the signature was computed
with, and then yields the embedded claims ("the issued token, when decoded
with that same secret, yields claims …", §8). -/
def jwt_decode (t : SignedToken) (key : String) : Option ClaimsDict :=
  if t.sigKey = key then some t.claims else none

/-! ## Secret Resolver (main.py lines 36-52) -/

/-- One record of the Kong credential list.  `secret = none` models a JSON
record without a `"secret"` key (reading it raises `KeyError`). -/
structure KongRecord where
  secret : Option String
deriving DecidableEq, Repr

/-- The external credential service's HTTP response: status code plus the
`data` list of the JSON body `{"data": [...]}`. -/
structure KongResponse where
  status_code : Nat
  data : List KongRecord
deriving DecidableEq, Repr

/-- `get_secret_from_kong(consumer_id)`, as a function of the response the
external service returns.  Mirrors main.py lines 36-52: non-200 status raises
`HTTPException(status_code, "Failed to fetch secret from Kong")`; then
`kong_data['data'][0]["secret"]` is read (raising `IndexError` on an empty
list, `KeyError` on a record without the key); a falsy (empty) secret raises
`HTTPException(404, ...)`; otherwise the secret is returned. -/
def get_secret_from_kong (response : KongResponse) : Except PyError String :=
  if response.status_code ≠ 200 then
    .error (.httpException response.status_code "Failed to fetch secret from Kong")
  else
    match response.data with
    | [] => .error .indexError
    | record :: _ =>
      match record.secret with
      | none => .error (.keyError "secret")
      | some s =>
        if s = "" then
          .error (.httpException 404 "No JWT credentials found for the specified consumer")
        else
          .ok s

/-- The spec's notion of an HTTP success status — the 2xx class, as HTTP and
the `httpx` client define success.  Stated from the spec's words, for
comparison with the code's check, which tests for status 200 exactly. -/
def isHttpSuccess (status : Nat) : Bool :=
  200 ≤ status && status < 300

/-! ## Token Issuer (main.py lines 54-67) -/

/-- `create_jwt_token(data, secret)` at current time `now` (Unix seconds).
Returns the encoded token together with the caller's dict as it stands after
the call: the source copies `data` (`to_encode = data.copy()`) and updates
only the copy, so the second component is `data` itself, unchanged. -/
def create_jwt_token (data : ClaimsDict) (secret : String) (now : Nat) :
    SignedToken × ClaimsDict :=
  let to_encode := data
  let expire := now + ACCESS_TOKEN_EXPIRE_MINUTES * 60
  let expire := min expire JWT_CEILING
  let to_encode := dictSet to_encode "exp" (.num expire)
  (jwt_encode to_encode secret ALGORITHM "JWT", data)

/-- `POST /generate-token/` body (main.py lines 69-74): fetch the secret from
Kong, build the payload `{"iss": data.iss}`, sign it. -/
def generate_token (iss : String) (response : KongResponse) (now : Nat) :
    Except PyError SignedToken :=
  match get_secret_from_kong response with
  | .error e => .error e
  | .ok secret => .ok (create_jwt_token [("iss", ClaimValue.str iss)] secret now).1

/-! ## CRUD item operations (main.py lines 77-114) -/

/-- The `Item` table row: integer primary key, name, and a description that
defaults to `None` in the source (`description: str = None`). -/
structure Item where
  id : Nat
  name : String
  description : Option String
deriving DecidableEq, Repr

/-- The persistence collaborator's state: the stored rows.  `session.get(Item,
item_id)` is lookup by primary key. -/
abbrev ItemStore := List Item

/-- `GET /items/{item_id}` (main.py lines 85-91): 404 when absent. -/
def read_item (store : ItemStore) (item_id : Nat) : Except PyError Item :=
  match store.find? (fun it => it.id == item_id) with
  | none => .error (.httpException 404 "Item not found")
  | some it => .ok it

/-- `PUT /items/{item_id}` (main.py lines 93-104): 404 when absent, otherwise
overwrite the stored row's `name` and `description` with the supplied item's
and return the updated row.  Returns (result, store after the call). -/
def update_item (store : ItemStore) (item_id : Nat) (item : Item) :
    Except PyError Item × ItemStore :=
  match store.find? (fun it => it.id == item_id) with
  | none => (.error (.httpException 404 "Item not found"), store)
  | some existing_item =>
    let updated := { existing_item with name := item.name, description := item.description }
    (.ok updated, store.map (fun it => if it.id == item_id then updated else it))

/-- `DELETE /items/{item_id}` (main.py lines 106-114): 404 when absent,
otherwise remove the row.  Returns (result, store after the call). -/
def delete_item (store : ItemStore) (item_id : Nat) :
    Except PyError Unit × ItemStore :=
  match store.find? (fun it => it.id == item_id) with
  | none => (.error (.httpException 404 "Item not found"), store)
  | some _ => (.ok (), store.filter (fun it => !(it.id == item_id)))

/-! ## Dictionary lemmas -/

theorem dictGet_dictSet_self (d : ClaimsDict) (k : String) (v : ClaimValue) :
    dictGet (dictSet d k v) k = some v := by
  induction d with
  | nil => simp [dictSet, dictGet]
  | cons p rest ih =>
    obtain ⟨k', v'⟩ := p
    by_cases h : k' = k
    · simp [dictSet, h, dictGet]
    · simp [dictSet, h, dictGet, ih]

theorem dictGet_dictSet_ne (d : ClaimsDict) (k j : String) (v : ClaimValue)
    (h : j ≠ k) : dictGet (dictSet d k v) j = dictGet d j := by
  induction d with
  | nil => simp [dictSet, dictGet, Ne.symm h]
  | cons p rest ih =>
    obtain ⟨k', v'⟩ := p
    by_cases hk : k' = k
    · subst hk
      simp [dictSet, dictGet, Ne.symm h]
    · by_cases hj : k' = j
      · simp [dictSet, hk, dictGet, hj, h]
      · simp [dictSet, hk, dictGet, hj, ih]

theorem countKey_cons (p : String × ClaimValue) (rest : ClaimsDict) (k : String) :
    countKey (p :: rest) k = countKey rest k + (if p.1 = k then 1 else 0) := by
  by_cases h : p.1 = k <;> simp [countKey, List.filter_cons, h]

theorem countKey_eq_zero (d : ClaimsDict) (k : String)
    (h : k ∉ d.map Prod.fst) : countKey d k = 0 := by
  induction d with
  | nil => rfl
  | cons p rest ih =>
    simp only [List.map_cons, List.mem_cons] at h
    push_neg at h
    rw [countKey_cons, ih h.2, if_neg (fun hh => h.1 hh.symm)]

theorem countKey_dictSet (d : ClaimsDict) (k : String) (v : ClaimValue)
    (h : (d.map Prod.fst).Nodup) : countKey (dictSet d k v) k = 1 := by
  induction d with
  | nil => simp [dictSet, countKey]
  | cons p rest ih =>
    obtain ⟨k', v'⟩ := p
    simp only [List.map_cons, List.nodup_cons] at h
    by_cases hk : k' = k
    · subst hk
      have hset : dictSet ((k', v') :: rest) k' v = (k', v) :: rest := by
        simp [dictSet]
      rw [hset, countKey_cons, countKey_eq_zero rest k' h.1, if_pos rfl]
    · have hset : dictSet ((k', v') :: rest) k v = (k', v') :: dictSet rest k v := by
        simp [dictSet, hk]
      rw [hset, countKey_cons, ih h.2, if_neg hk]

/-- Unfolding: the claims carried by the encoded token are the input dict with
`exp` set to the clamped expiry. -/
theorem create_jwt_token_claims (data : ClaimsDict) (secret : String) (now : Nat) :
    (create_jwt_token data secret now).1.claims =
      dictSet data "exp"
        (.num (min (now + ACCESS_TOKEN_EXPIRE_MINUTES * 60) JWT_CEILING)) := rfl

/-- Decoding with the signing secret always succeeds and yields the token's
claims. -/
theorem jwt_decode_create_jwt_token (data : ClaimsDict) (secret : String) (now : Nat) :
    jwt_decode (create_jwt_token data secret now).1 secret =
      some (dictSet data "exp"
        (.num (min (now + ACCESS_TOKEN_EXPIRE_MINUTES * 60) JWT_CEILING))) := by
  simp [create_jwt_token, jwt_encode, jwt_decode]

/-! ## Claim theorems -/

/-- C1 (counterexample): at issuance time 2147483647 — the ceiling itself —
the decoded `exp` claim equals the issuance time, so it is not strictly
greater than the issuance time, refuting the claim as stated for that run. -/
theorem c1_counterexample_at_ceiling :
    ¬ ∃ e,
      (jwt_decode (create_jwt_token [("iss", ClaimValue.str "service-a")] "k" 2147483647).1
            "k").bind (fun c => dictGet c "exp") = some (ClaimValue.num e) ∧
      2147483647 < e ∧ e ≤ min (2147483647 + 120) 2147483647 := by
  rintro ⟨e, he, hlt, hle⟩
  have hv : (jwt_decode (create_jwt_token [("iss", ClaimValue.str "service-a")] "k" 2147483647).1
      "k").bind (fun c => dictGet c "exp") = some (ClaimValue.num 2147483647) := by decide
  rw [hv] at he
  simp only [Option.some.injEq, ClaimValue.num.injEq] at he
  omega

/-- C1 (amended): for every payload containing an `iss` value, every
secret, and every issuance time strictly below the ceiling, decoding the
issued token with the same secret yields claims containing the original `iss`
value and an `exp` strictly greater than the issuance time and no greater
than the minimum of issuance time plus the validity window and the ceiling. -/
theorem c1_decoded_claims_iss_and_exp_window
    (data : ClaimsDict) (iss : ClaimValue) (secret : String) (now : Nat)
    (hiss : dictGet data "iss" = some iss) (hnow : now < JWT_CEILING) :
    ∃ c, jwt_decode (create_jwt_token data secret now).1 secret = some c ∧
      dictGet c "iss" = some iss ∧
      ∃ e, dictGet c "exp" = some (ClaimValue.num e) ∧ now < e ∧
        e ≤ min (now + ACCESS_TOKEN_EXPIRE_MINUTES * 60) JWT_CEILING := by
  refine ⟨_, jwt_decode_create_jwt_token data secret now, ?_, ?_⟩
  · rw [dictGet_dictSet_ne data "exp" "iss" _ (by decide)]
    exact hiss
  · refine ⟨_, dictGet_dictSet_self data "exp" _, ?_, le_refl _⟩
    have h1 : now < now + ACCESS_TOKEN_EXPIRE_MINUTES * 60 := by
      have h0 : 0 < ACCESS_TOKEN_EXPIRE_MINUTES * 60 := by decide
      omega
    exact lt_min h1 hnow

/-- C1 witness at a concrete payload, secret and issuance time. -/
theorem c1_decoded_claims_iss_and_exp_window_witness :
    ∃ c, jwt_decode
        (create_jwt_token [("iss", ClaimValue.str "service-a")] "s3cr3t" 1000).1 "s3cr3t" =
        some c ∧
      dictGet c "iss" = some (ClaimValue.str "service-a") ∧
      ∃ e, dictGet c "exp" = some (ClaimValue.num e) ∧ 1000 < e ∧
        e ≤ min (1000 + ACCESS_TOKEN_EXPIRE_MINUTES * 60) JWT_CEILING :=
  c1_decoded_claims_iss_and_exp_window [("iss", ClaimValue.str "service-a")]
    (ClaimValue.str "service-a") "s3cr3t" 1000 rfl (by decide)

/-- C2: when the computed expiry `now + window` exceeds the ceiling, the
token's `exp` equals exactly the ceiling; otherwise it equals `now + window`. -/
theorem c2_exp_clamped_to_ceiling (data : ClaimsDict) (secret : String) (now : Nat) :
    (JWT_CEILING < now + ACCESS_TOKEN_EXPIRE_MINUTES * 60 →
      dictGet (create_jwt_token data secret now).1.claims "exp" =
        some (ClaimValue.num JWT_CEILING)) ∧
    (now + ACCESS_TOKEN_EXPIRE_MINUTES * 60 ≤ JWT_CEILING →
      dictGet (create_jwt_token data secret now).1.claims "exp" =
        some (ClaimValue.num (now + ACCESS_TOKEN_EXPIRE_MINUTES * 60))) := by
  have hget : dictGet (create_jwt_token data secret now).1.claims "exp" =
      some (ClaimValue.num (min (now + ACCESS_TOKEN_EXPIRE_MINUTES * 60) JWT_CEILING)) := by
    rw [create_jwt_token_claims, dictGet_dictSet_self]
  constructor
  · intro h
    rw [hget, min_eq_right (le_of_lt h)]
  · intro h
    rw [hget, min_eq_left h]

/-- C2 witness: one issuance time past the ceiling (clamped) and one
safely below it (unclamped). -/
theorem c2_exp_clamped_to_ceiling_witness :
    dictGet (create_jwt_token [] "k" 2147483640).1.claims "exp" =
      some (ClaimValue.num 2147483647) ∧
    dictGet (create_jwt_token [] "k" 1000).1.claims "exp" =
      some (ClaimValue.num 1120) := by
  constructor
  · exact (c2_exp_clamped_to_ceiling [] "k" 2147483640).1 (by decide)
  · exact (c2_exp_clamped_to_ceiling [] "k" 1000).2 (by decide)

/-- C5: for every payload with Python-dict (duplicate-free) keys —
including one that already carries an `exp` entry — the issued token holds
exactly one `exp` claim, and its value never exceeds the ceiling. -/
theorem c5_unique_exp_claim_clamped (data : ClaimsDict) (secret : String) (now : Nat)
    (h : (data.map Prod.fst).Nodup) :
    countKey (create_jwt_token data secret now).1.claims "exp" = 1 ∧
    ∃ e, dictGet (create_jwt_token data secret now).1.claims "exp" =
      some (ClaimValue.num e) ∧ e ≤ JWT_CEILING := by
  rw [create_jwt_token_claims]
  exact ⟨countKey_dictSet data "exp" _ h,
    _, dictGet_dictSet_self data "exp" _, min_le_right _ _⟩

/-- C5 witness: a payload that already contains an (oversized) `exp`
entry still yields exactly one, clamped `exp` claim. -/
theorem c5_unique_exp_claim_clamped_witness :
    countKey (create_jwt_token
        [("iss", ClaimValue.str "a"), ("exp", ClaimValue.num 9000000000)] "k" 0).1.claims
      "exp" = 1 ∧
    ∃ e, dictGet (create_jwt_token
        [("iss", ClaimValue.str "a"), ("exp", ClaimValue.num 9000000000)] "k" 0).1.claims
      "exp" = some (ClaimValue.num e) ∧ e ≤ JWT_CEILING :=
  c5_unique_exp_claim_clamped
    [("iss", ClaimValue.str "a"), ("exp", ClaimValue.num 9000000000)] "k" 0 (by decide)

/-- C3 (counterexample): status 201 is an HTTP success status, and the
response carries a usable credential record, yet `get_secret_from_kong` fails
with the upstream error rather than selecting the secret: the code tests for
status 200 exactly, not for HTTP success. -/
theorem c3_counterexample_status_201 :
    isHttpSuccess 201 = true ∧
    get_secret_from_kong ⟨201, [⟨some "s3cr3t"⟩]⟩ =
      .error (.httpException 201 "Failed to fetch secret from Kong") ∧
    get_secret_from_kong ⟨201, [⟨some "s3cr3t"⟩]⟩ ≠ .ok "s3cr3t" := by
  refine ⟨rfl, rfl, fun h => ?_⟩
  rw [show get_secret_from_kong ⟨201, [⟨some "s3cr3t"⟩]⟩ =
      Except.error (PyError.httpException 201 "Failed to fetch secret from Kong") from rfl] at h
  exact Except.noConfusion h

/-- C3 (amended): `get_secret_from_kong` fails with the upstream error
carrying the external status code if and only if that status differs from
200; whenever the status is 200 and the first credential record carries a
nonempty secret, the secret is returned. -/
theorem c3_upstream_error_iff_status_not_200 (response : KongResponse) :
    (get_secret_from_kong response =
        .error (.httpException response.status_code "Failed to fetch secret from Kong") ↔
      response.status_code ≠ 200) ∧
    (∀ s rest, response.status_code = 200 → response.data = ⟨some s⟩ :: rest → s ≠ "" →
      get_secret_from_kong response = .ok s) := by
  constructor
  · constructor
    · intro h hstatus
      rw [hstatus] at h
      simp only [get_secret_from_kong, hstatus, ne_eq, not_true_eq_false, if_false,
        ite_false] at h
      rcases hdata : response.data with _ | ⟨⟨sec⟩, rest⟩
      · rw [hdata] at h
        exact PyError.noConfusion (Except.error.inj h)
      · rw [hdata] at h
        rcases sec with _ | s
        · exact PyError.noConfusion (Except.error.inj h)
        · by_cases hs : s = ""
          · simp [hs] at h
          · simp [hs] at h
    · intro h
      simp [get_secret_from_kong, h]
  · intro s rest h200 hdata hs
    simp [get_secret_from_kong, h200, hdata, hs]

/-- C3 witness: a 500 response yields the upstream error with status 500;
a 200 response with a nonempty first secret yields that secret. -/
theorem c3_upstream_error_iff_status_not_200_witness :
    get_secret_from_kong ⟨500, []⟩ =
      .error (.httpException 500 "Failed to fetch secret from Kong") ∧
    get_secret_from_kong ⟨200, [⟨some "tok"⟩]⟩ = .ok "tok" := by
  constructor
  · exact (c3_upstream_error_iff_status_not_200 ⟨500, []⟩).1.mpr (by decide)
  · exact (c3_upstream_error_iff_status_not_200 ⟨200, [⟨some "tok"⟩]⟩).2 "tok" []
      rfl rfl (by decide)

/-- C4: evaluating the code at the failing inputs.  A 200 response with an
empty credential list raises `IndexError` (an unhandled server error), and a
200 response whose first record has no `secret` key raises `KeyError` — not
the 404 `HTTPException` the claim requires; only a present-but-empty secret
value reaches the 404 branch. -/
theorem c4_empty_credential_list_raises_index_error :
    get_secret_from_kong ⟨200, []⟩ = .error .indexError ∧
    get_secret_from_kong ⟨200, [⟨none⟩]⟩ = .error (.keyError "secret") ∧
    get_secret_from_kong ⟨200, [⟨some ""⟩]⟩ =
      .error (.httpException 404 "No JWT credentials found for the specified consumer") :=
  ⟨rfl, rfl, rfl⟩

/-- C6: the validity window is exactly 2 minutes, and for any 200 Kong
response whose first credential secret is `"s3cr3t"` and any issuance time
safely below the ceiling, the token issued by `generate_token` for issuer
claim `"service-a"` decodes with `"s3cr3t"` to exactly
`{iss: "service-a", exp: now + 120}`. -/
theorem c6_two_minute_window_scenario :
    ACCESS_TOKEN_EXPIRE_MINUTES = 2 ∧
    ∀ (response : KongResponse) (rest : List KongRecord) (now : Nat),
      response.status_code = 200 → response.data = ⟨some "s3cr3t"⟩ :: rest →
      now + 120 ≤ JWT_CEILING →
      ∃ t, generate_token "service-a" response now = .ok t ∧
        jwt_decode t "s3cr3t" =
          some [("iss", ClaimValue.str "service-a"),
                ("exp", ClaimValue.num (now + 120))] := by
  refine ⟨rfl, ?_⟩
  intro response rest now h200 hdata hnow
  have hsecret : get_secret_from_kong response = .ok "s3cr3t" := by
    simp [get_secret_from_kong, h200, hdata]
  refine ⟨(create_jwt_token [("iss", ClaimValue.str "service-a")] "s3cr3t" now).1, ?_, ?_⟩
  · simp [generate_token, hsecret]
  · rw [jwt_decode_create_jwt_token]
    have hmin : min (now + ACCESS_TOKEN_EXPIRE_MINUTES * 60) JWT_CEILING = now + 120 :=
      min_eq_left hnow
    rw [hmin]
    simp [dictSet]

/-- C6 witness at a concrete response and issuance time. -/
theorem c6_two_minute_window_scenario_witness :
    ACCESS_TOKEN_EXPIRE_MINUTES = 2 ∧
    ∃ t, generate_token "service-a" ⟨200, [⟨some "s3cr3t"⟩]⟩ 1000 = .ok t ∧
      jwt_decode t "s3cr3t" =
        some [("iss", ClaimValue.str "service-a"), ("exp", ClaimValue.num 1120)] :=
  ⟨c6_two_minute_window_scenario.1,
   c6_two_minute_window_scenario.2 ⟨200, [⟨some "s3cr3t"⟩]⟩ [] 1000 rfl rfl (by decide)⟩

/-- C7: `create_jwt_token` is a pure function of (claims, secret, current
time): equal inputs give the identical token, and the only observable state —
the caller's claims dict — is untouched. -/
theorem c7_deterministic_pure (d1 d2 : ClaimsDict) (s1 s2 : String) (n1 n2 : Nat)
    (hd : d1 = d2) (hs : s1 = s2) (hn : n1 = n2) :
    create_jwt_token d1 s1 n1 = create_jwt_token d2 s2 n2 ∧
    (create_jwt_token d1 s1 n1).2 = d1 := by
  subst hd; subst hs; subst hn
  exact ⟨rfl, rfl⟩

/-- C7 witness at concrete equal inputs. -/
theorem c7_deterministic_pure_witness :
    create_jwt_token [("iss", ClaimValue.str "a")] "k" 5 =
      create_jwt_token [("iss", ClaimValue.str "a")] "k" 5 ∧
    (create_jwt_token [("iss", ClaimValue.str "a")] "k" 5).2 =
      [("iss", ClaimValue.str "a")] :=
  c7_deterministic_pure [("iss", ClaimValue.str "a")] [("iss", ClaimValue.str "a")]
    "k" "k" 5 5 rfl rfl rfl

/-- C9: `create_jwt_token` never mutates the caller's claims dict — the
source updates only the copy `to_encode = data.copy()`, so the caller's dict
after the call is its value before the call. -/
theorem c9_caller_dict_unmutated (data : ClaimsDict) (secret : String) (now : Nat) :
    (create_jwt_token data secret now).2 = data := rfl

/-- C8: for an `item_id` absent from the store, `read_item`, `update_item`
and `delete_item` each fail with the 404 "Item not found" error, and the
store is unchanged by the failed call. -/
theorem c8_missing_item_404_store_unchanged (store : ItemStore) (item_id : Nat)
    (item : Item) (habs : ∀ it ∈ store, it.id ≠ item_id) :
    read_item store item_id = .error (.httpException 404 "Item not found") ∧
    update_item store item_id item =
      (.error (.httpException 404 "Item not found"), store) ∧
    delete_item store item_id =
      (.error (.httpException 404 "Item not found"), store) := by
  have hfind : store.find? (fun it => it.id == item_id) = none := by
    rw [List.find?_eq_none]
    intro it hit
    simpa using habs it hit
  exact ⟨by simp [read_item, hfind], by simp [update_item, hfind],
    by simp [delete_item, hfind]⟩

/-- C8 witness: id 2 is absent from a one-item store. -/
theorem c8_missing_item_404_store_unchanged_witness :
    read_item [⟨1, "a", none⟩] 2 = .error (.httpException 404 "Item not found") ∧
    update_item [⟨1, "a", none⟩] 2 ⟨0, "x", none⟩ =
      (.error (.httpException 404 "Item not found"), [⟨1, "a", none⟩]) ∧
    delete_item [⟨1, "a", none⟩] 2 =
      (.error (.httpException 404 "Item not found"), [⟨1, "a", none⟩]) :=
  c8_missing_item_404_store_unchanged [⟨1, "a", none⟩] 2 ⟨0, "x", none⟩ (by decide)

/-- C10: when `item_id` is found, `update_item` returns the record with
that id and the supplied name and description; the store after the call has
the same length, every record with a different id sits unchanged at its
position, and the targeted record keeps its id with only name and description
overwritten. -/
theorem c10_update_targets_only_name_description (store : ItemStore) (item_id : Nat)
    (item ex : Item) (hfind : store.find? (fun it => it.id == item_id) = some ex) :
    (update_item store item_id item).1 =
      .ok ⟨item_id, item.name, item.description⟩ ∧
    (update_item store item_id item).2.length = store.length ∧
    (∀ (i : Nat) (it : Item), store[i]? = some it → it.id ≠ item_id →
      (update_item store item_id item).2[i]? = some it) ∧
    (∀ (i : Nat) (it : Item), store[i]? = some it → it.id = item_id →
      (update_item store item_id item).2[i]? =
        some ⟨it.id, item.name, item.description⟩) := by
  have hexid : ex.id = item_id := by
    have hp := List.find?_some hfind
    simpa using hp
  simp only [update_item, hfind]
  refine ⟨by rw [hexid], List.length_map _ _, ?_, ?_⟩
  · intro i it hit hne
    rw [List.getElem?_map, hit]
    simp [hne]
  · intro i it hit heq
    rw [List.getElem?_map, hit]
    simp [heq, hexid]

/-- C10 witness: updating id 1 in a two-item store rewrites only that
record's name and description and leaves the other record in place. -/
theorem c10_update_targets_only_name_description_witness :
    (update_item [⟨1, "a", none⟩, ⟨2, "b", some "d"⟩] 1 ⟨77, "n", some "x"⟩).1 =
      .ok ⟨1, "n", some "x"⟩ ∧
    (update_item [⟨1, "a", none⟩, ⟨2, "b", some "d"⟩] 1 ⟨77, "n", some "x"⟩).2[0]? =
      some ⟨1, "n", some "x"⟩ ∧
    (update_item [⟨1, "a", none⟩, ⟨2, "b", some "d"⟩] 1 ⟨77, "n", some "x"⟩).2[1]? =
      some ⟨2, "b", some "d"⟩ := by
  have h := c10_update_targets_only_name_description
    [⟨1, "a", none⟩, ⟨2, "b", some "d"⟩] 1 ⟨77, "n", some "x"⟩ ⟨1, "a", none⟩ rfl
  exact ⟨h.1, h.2.2.2 0 ⟨1, "a", none⟩ rfl rfl, h.2.2.1 1 ⟨2, "b", some "d"⟩ rfl (by decide)⟩

end ReadDataService
